import Mathlib

/-!
Verification of the branch-mode state machine of the `obsidian_git_collab`
plugin, shallowly embedded from `src/git.ts`, `src/readonly.ts` and
`src/main.ts`.

Each TypeScript method is translated into a pure Lean function.  External
effects are made explicit:
* the outcome of every git subprocess call is an oracle parameter
  (`checkoutOk`, `showOk`, `statusResult`, ...); a `false`/`none` value
  models the subprocess throwing (non-zero exit);
* `fsOk` models `adapter instanceof FileSystemAdapter` succeeding;
* notices (`new Notice(...)`), issued git commands, opened modals and
  `saveSettings` calls are collected in the result record;
* the branch that is actually checked out in the working tree is threaded
  through as `actual`, updated by every successful `git checkout`.

An `undefined` optional argument is modelled as `none`; a JS
`Record<string, string>` is modelled as an association list whose first
binding for a key is the current one.
-/

namespace GitCollab

/-- The persisted plugin settings: interface `GitCollabSettings` in
`src/main.ts`. -/
structure Settings where
  isReadOnlyMode : Bool
  repositoryUrl : String
  isRepositoryConnected : Bool
  currentBranch : String
  userEmail : String
  userName : String
  mainBranch : String
  availableBranches : List String
  lastWorkingBranch : String
  repositoryTokens : List (String × String)
deriving Repr, DecidableEq

/-- `DEFAULT_SETTINGS` in `src/main.ts`. -/
def DEFAULT_SETTINGS : Settings :=
  { isReadOnlyMode := true
    repositoryUrl := ""
    isRepositoryConnected := false
    currentBranch := "main"
    userEmail := ""
    userName := ""
    mainBranch := "main"
    availableBranches := ["main"]
    lastWorkingBranch := ""
    repositoryTokens := [] }

/-- A git subprocess command issued through `execAsync`. -/
inductive GitCmd where
  | showCurrent
  | checkout (branch : String)
  | status
  | fetch
  | revListCount (branch : String)
  | pull (branch : String)
  | push (branch : String)
  | clone (url : String)
deriving Repr, DecidableEq

/-- A modal opened mid-transition, suspending it. -/
inductive ModalKind where
  | branchSelection
  | saveChanges
deriving Repr, DecidableEq

/-- Outcome of a state-machine transition: the settings after the call, the
branch actually checked out after the call, the returned boolean, the
notices shown, the git commands issued, the modal opened (if any) and
whether `saveSettings` ran. -/
structure TRes where
  settings : Settings
  actual : String
  ok : Bool
  notices : List String
  calls : List GitCmd
  modal : Option ModalKind
  saved : Bool
deriving Repr, DecidableEq

/-- `GitOperations.validateAndEnforceBranchRules` (`src/git.ts:15`).
`actual` is the branch reported by `git branch --show-current`, `showOk`
whether that subprocess succeeds, and `checkoutOk` whether the
`git checkout` issued by RULE 1 (if any) succeeds. -/
def validateAndEnforceBranchRules (s : Settings) (actual : String)
    (fsOk showOk checkoutOk : Bool) : TRes :=
  if s.isRepositoryConnected = false then
    ⟨s, actual, true, [], [], none, false⟩
  else if fsOk = false then
    ⟨s, actual, false, [], [], none, false⟩
  else if showOk = false then
    ⟨s, actual, false, [], [GitCmd.showCurrent], none, false⟩
  else
    -- VALIDATION: correct the main-branch setting
    let corrected := s.mainBranch ≠ "main" ∧ actual = "main"
    let s1 := if s.mainBranch ≠ "main" ∧ actual = "main"
      then { s with mainBranch := "main" } else s
    -- RULE 1: read-only mode must be on the main branch
    if s1.isReadOnlyMode = true ∧ actual ≠ s1.mainBranch then
      if checkoutOk then
        ⟨{ s1 with currentBranch := s1.mainBranch }, s1.mainBranch, true,
          ["🔒 Switched to " ++ s1.mainBranch ++ " for read-only mode"],
          [GitCmd.showCurrent, GitCmd.checkout s1.mainBranch], none, true⟩
      else
        ⟨s1, actual, false, [],
          [GitCmd.showCurrent, GitCmd.checkout s1.mainBranch], none,
          decide corrected⟩
    -- RULE 2: edit mode must not be on the main branch
    else if s1.isReadOnlyMode = false ∧ actual = s1.mainBranch then
      ⟨{ s1 with isReadOnlyMode := true }, actual, false,
        ["🚫 Cannot edit on " ++ s1.mainBranch ++
          " branch. Switched to read-only mode."],
        [GitCmd.showCurrent], none, true⟩
    else
      -- sync the stored current branch to reality
      ⟨{ s1 with currentBranch := actual }, actual, true, [],
        [GitCmd.showCurrent], none,
        decide (corrected ∨ actual ≠ s.currentBranch)⟩

/-- `GitOperations.checkForUncommittedChanges` (`src/git.ts:73`):
the returned boolean together with the git commands issued.
`statusResult = none` models `git status --porcelain` throwing. -/
def checkForUncommittedChanges (s : Settings) (fsOk : Bool)
    (statusResult : Option String) : Bool × List GitCmd :=
  if s.isRepositoryConnected = false then (false, [])
  else if fsOk = false then (false, [])
  else
    match statusResult with
    | none => (false, [GitCmd.status])
    | some out => (out.trim.length > 0, [GitCmd.status])

example :
    (validateAndEnforceBranchRules DEFAULT_SETTINGS "main" true true true).ok
      = true := by decide

/-- A connected post-clone state: read-only on `main`. -/
def connectedMain : Settings :=
  { isReadOnlyMode := true
    repositoryUrl := "https://github.com/owner/repo.git"
    isRepositoryConnected := true
    currentBranch := "main"
    userEmail := ""
    userName := ""
    mainBranch := "main"
    availableBranches := ["main"]
    lastWorkingBranch := ""
    repositoryTokens := [] }

example :
    (validateAndEnforceBranchRules
      { connectedMain with isReadOnlyMode := false }
      "main" true true true).settings.isReadOnlyMode = true := by decide

/-- Tail of `ReadOnlyOperations.enableEditMode` (`src/readonly.ts:92`):
after the target-branch block, the method unconditionally clears
`isReadOnlyMode`, updates the branch fields when a repository is connected
and a branch name was given, saves, and re-runs the validator.  `calls0`
are the git commands already issued by the checkout step. -/
def finishEditMode (s : Settings) (branchName : Option String)
    (actual : String) (calls0 : List GitCmd)
    (fsOk vShowOk vCheckoutOk : Bool) : TRes :=
  let s2 := { s with isReadOnlyMode := false }
  let s3 := match branchName with
    | some b =>
      if s.isRepositoryConnected then
        { s2 with currentBranch := b, lastWorkingBranch := b }
      else s2
    | none => s2
  let n1 := match branchName with
    | some b =>
      if s.isRepositoryConnected then
        "✏️ Edit Mode enabled on branch: " ++ b
      else "✏️ Edit Mode enabled - You can now modify files"
    | none => "✏️ Edit Mode enabled - You can now modify files"
  let v := validateAndEnforceBranchRules s3 actual fsOk vShowOk vCheckoutOk
  ⟨v.settings, v.actual, true, [n1] ++ v.notices, calls0 ++ v.calls,
    v.modal, true⟩

/-- `ReadOnlyOperations.enableEditMode` (`src/readonly.ts:61`).
`branchName = none` models the `branchName?` argument being omitted;
`checkoutOk` whether `git checkout <target>` succeeds; `vShowOk` and
`vCheckoutOk` are the oracles of the trailing validator run. -/
def enableEditMode (s : Settings) (branchName : Option String)
    (actual : String) (fsOk checkoutOk vShowOk vCheckoutOk : Bool) : TRes :=
  match branchName with
  | none =>
    if s.isRepositoryConnected then
      -- suspend: open the branch-selection modal, mutate nothing
      ⟨s, actual, false, [], [], some ModalKind.branchSelection, false⟩
    else
      finishEditMode s none actual [] fsOk vShowOk vCheckoutOk
  | some b =>
    if s.isRepositoryConnected then
      if b = s.mainBranch then
        ⟨s, actual, false,
          ["🚫 Cannot enable edit mode on " ++ s.mainBranch ++
            " branch. Please select a different branch."],
          [], none, false⟩
      else if fsOk = true ∧ checkoutOk = false then
        ⟨s, actual, false,
          ["Failed to switch to branch " ++ b],
          [GitCmd.checkout b], none, false⟩
      else
        -- when the adapter is not a FileSystemAdapter the checkout is
        -- silently skipped and the method continues
        finishEditMode s (some b) (if fsOk then b else actual)
          (if fsOk then [GitCmd.checkout b] else [])
          fsOk vShowOk vCheckoutOk
    else
      finishEditMode s (some b) actual [] fsOk vShowOk vCheckoutOk

/-- `ReadOnlyOperations.forceEnableReadOnlyMode` (`src/readonly.ts:131`).
`checkoutOk` is whether `git checkout <mainBranch>` succeeds. -/
def forceEnableReadOnlyMode (s : Settings) (actual : String)
    (fsOk checkoutOk vShowOk vCheckoutOk : Bool) : TRes :=
  if s.isRepositoryConnected then
    if fsOk then
      if checkoutOk then
        let s2 :=
          { s with isReadOnlyMode := true, currentBranch := s.mainBranch }
        let v := validateAndEnforceBranchRules s2 s.mainBranch fsOk
          vShowOk vCheckoutOk
        ⟨v.settings, v.actual, true,
          ["🔒 Read-Only Mode enabled - Switched to " ++ s.mainBranch ++
            " branch"] ++ v.notices,
          [GitCmd.checkout s.mainBranch] ++ v.calls, v.modal, true⟩
      else
        -- checkout failed: revert the flag and return without saving
        ⟨{ s with isReadOnlyMode := false }, actual, false,
          ["❌ Cannot enable read-only mode: Failed to switch to " ++
            s.mainBranch ++ " branch"],
          [GitCmd.checkout s.mainBranch], none, false⟩
    else
      -- fallback if the filesystem is not accessible: no checkout
      let s2 :=
        { s with isReadOnlyMode := true, currentBranch := s.mainBranch }
      let v := validateAndEnforceBranchRules s2 actual fsOk vShowOk
        vCheckoutOk
      ⟨v.settings, v.actual, true,
        ["🔒 Read-Only Mode enabled - Repository protection active"]
          ++ v.notices,
        v.calls, v.modal, true⟩
  else
    let s2 := { s with isReadOnlyMode := true }
    let v := validateAndEnforceBranchRules s2 actual fsOk vShowOk
      vCheckoutOk
    ⟨v.settings, v.actual, true,
      ["🔒 Read-Only Mode enabled - Vault is protected"] ++ v.notices,
      v.calls, v.modal, true⟩

/-- `ReadOnlyOperations.enableReadOnlyModeWithBranch`
(`src/readonly.ts:112`): the `withSaveCheck = true` entry point.
`statusResult` is the oracle of `git status --porcelain`. -/
def enableReadOnlyModeWithBranch (s : Settings) (actual : String)
    (fsOk : Bool) (statusResult : Option String)
    (checkoutOk vShowOk vCheckoutOk : Bool) : TRes :=
  if s.isRepositoryConnected = true ∧ s.isReadOnlyMode = false then
    let c := checkForUncommittedChanges s fsOk statusResult
    if c.1 then
      -- suspend: open the save-changes modal, mutate nothing
      ⟨s, actual, false, [], c.2, some ModalKind.saveChanges, false⟩
    else
      let f := forceEnableReadOnlyMode s actual fsOk checkoutOk vShowOk
        vCheckoutOk
      ⟨f.settings, f.actual, f.ok, f.notices, c.2 ++ f.calls, f.modal,
        f.saved⟩
  else
    forceEnableReadOnlyMode s actual fsOk checkoutOk vShowOk vCheckoutOk

/-- `GitOperations.switchToBranch` (`src/git.ts:437`). -/
def switchToBranch (s : Settings) (b : String) (actual : String)
    (fsOk checkoutOk vShowOk vCheckoutOk : Bool) : TRes :=
  if s.isRepositoryConnected = false then
    ⟨s, actual, false, ["No repository connected"], [], none, false⟩
  else if s.isReadOnlyMode = true ∧ b ≠ s.mainBranch then
    ⟨s, actual, false,
      ["🚫 Cannot switch to " ++ b ++ " in read-only mode. Only " ++
        s.mainBranch ++ " is allowed."],
      [], none, false⟩
  else if s.isReadOnlyMode = false ∧ b = s.mainBranch then
    ⟨s, actual, false,
      ["🚫 Cannot switch to " ++ s.mainBranch ++
        " in edit mode. Please use read-only mode for " ++ s.mainBranch ++
        "."],
      [], none, false⟩
  else if fsOk = false then
    ⟨s, actual, false, ["Cannot access vault directory"], [], none, false⟩
  else if checkoutOk = false then
    -- the real notice appends the adapter error message
    ⟨s, actual, false, ["Failed to switch to branch: "],
      [GitCmd.checkout b], none, false⟩
  else
    let s1 := { s with currentBranch := b }
    let v := validateAndEnforceBranchRules s1 b fsOk vShowOk vCheckoutOk
    ⟨v.settings, v.actual, true,
      v.notices ++ ["Switched to branch: " ++ b],
      [GitCmd.checkout b] ++ v.calls, v.modal, true⟩

/-! ### Credential store (`src/main.ts`) -/

/-- Substring test on character lists (these URLs are ASCII, so character
and JS-code-unit indexing agree). -/
def hasSubstr (pat : List Char) : List Char → Bool
  | [] => pat.isEmpty
  | c :: cs => pat.isPrefixOf (c :: cs) || hasSubstr pat cs

/-- JS `url.includes("github.com")`. -/
def includesGithub (url : String) : Bool :=
  hasSubstr "github.com".toList url.toList

/-- JS `s.startsWith(p)`. -/
def jsStartsWith (s p : String) : Bool :=
  p.toList.isPrefixOf s.toList

/-- JS `s.endsWith(p)`. -/
def jsEndsWith (s p : String) : Bool :=
  p.toList.isSuffixOf s.toList

/-- Drop the first `n` characters of `s`: JS `s.substring(n)`. -/
def jsDrop (s : String) (n : Nat) : String :=
  String.mk (s.toList.drop n)

/-- Drop the last `n` characters of `s`. -/
def jsDropRight (s : String) (n : Nat) : String :=
  String.mk (s.toList.take (s.toList.length - n))

/-- The regex replace `url.replace(/^https?:\/\//, "")`. -/
def stripScheme (url : String) : String :=
  if jsStartsWith url "https://" then jsDrop url 8
  else if jsStartsWith url "http://" then jsDrop url 7
  else url

/-- The regex replace `.replace(/\.git$/, "")`. -/
def stripDotGit (url : String) : String :=
  if jsEndsWith url ".git" then jsDropRight url 4 else url

/-- `ObsidianGitCollabPlugin.normalizeRepositoryUrl` (`src/main.ts:223`). -/
def normalizeRepositoryUrl (url : String) : String :=
  if includesGithub url then
    let normalized := stripDotGit (stripScheme url)
    if jsStartsWith normalized "github.com/" then
      "https://github.com/" ++ jsDrop normalized 11
    else url
  else url

/-- JS object property write `tokens[key] = value`. -/
def upsertToken (l : List (String × String)) (k v : String) :
    List (String × String) :=
  (k, v) :: l.filter (fun p => p.1 ≠ k)

/-- `ObsidianGitCollabPlugin.getRepositoryToken` (`src/main.ts:202`). -/
def getRepositoryToken (s : Settings) (url : String) : Option String :=
  s.repositoryTokens.lookup (normalizeRepositoryUrl url)

/-- `ObsidianGitCollabPlugin.setRepositoryToken` (`src/main.ts:207`). -/
def setRepositoryToken (s : Settings) (url token : String) : Settings :=
  { s with repositoryTokens :=
      upsertToken s.repositoryTokens (normalizeRepositoryUrl url) token }

example :
    normalizeRepositoryUrl "https://github.com/owner/repo.git" =
      "https://github.com/owner/repo" := by decide

example :
    normalizeRepositoryUrl "github.com/owner/repo" =
      "https://github.com/owner/repo" := by decide

/-! ### Bulk git operations and the operation-in-progress flag -/

/-- Outcome of a bulk git operation: the returned boolean, the notices,
the git commands issued and the `isGitOperationInProgress` flag after the
call. -/
structure GRes where
  ok : Bool
  notices : List String
  calls : List GitCmd
  flag : Bool
deriving Repr, DecidableEq

/-- `GitOperations.pushChanges` (`src/git.ts:119`).  `flag` is the value
of `isGitOperationInProgress` at entry; `revList` the parsed output of
`git rev-list --count HEAD..origin/<branch>` (`none` models the command
throwing, e.g. the branch does not exist on the remote); `fetchOk` is
unused in the result because a fetch failure is logged and ignored. -/
def pushChanges (s : Settings) (flag : Bool)
    (fsOk fetchOk : Bool) (revList : Option Nat)
    (pullOk pushOk : Bool) : GRes :=
  if s.isRepositoryConnected = false then ⟨false, [], [], flag⟩
  else if fsOk = false then ⟨false, [], [], flag⟩
  else
    let br := s.currentBranch
    let _ := fetchOk
    match revList with
    | none =>
      -- could not check if the branch is behind: proceed with the push
      ⟨pushOk, [], [GitCmd.fetch, GitCmd.revListCount br, GitCmd.push br],
        flag⟩
    | some n =>
      if n > 0 then
        if pullOk then
          ⟨pushOk,
            ["📥 Pulled " ++ toString n ++
              " update(s) from remote before pushing"],
            [GitCmd.fetch, GitCmd.revListCount br, GitCmd.pull br,
              GitCmd.push br],
            false⟩
        else
          ⟨false,
            ["❌ Cannot push: Local branch is behind remote and pull failed. Please resolve conflicts manually."],
            [GitCmd.fetch, GitCmd.revListCount br, GitCmd.pull br],
            false⟩
      else
        ⟨pushOk, [],
          [GitCmd.fetch, GitCmd.revListCount br, GitCmd.push br], flag⟩

/-- `GitOperations.pullLatestChanges` (`src/git.ts:368`). -/
def pullLatestChanges (s : Settings) (flag : Bool)
    (fsOk checkoutOk pullOk : Bool) : GRes :=
  if fsOk = false then
    ⟨false, ["Cannot access vault directory for Git operations"], [], flag⟩
  else if checkoutOk = false then
    ⟨false, ["Failed to pull latest changes"],
      [GitCmd.checkout s.mainBranch], false⟩
  else if pullOk = false then
    ⟨false, ["Failed to pull latest changes"],
      [GitCmd.checkout s.mainBranch, GitCmd.pull s.mainBranch], false⟩
  else
    ⟨true, ["✅ Pulled latest changes from " ++ s.mainBranch],
      [GitCmd.checkout s.mainBranch, GitCmd.pull s.mainBranch], false⟩

/-- `GitOperations.cloneRepository` (`src/git.ts:719`), abstracted to the
settings and flag effects.  `readdirOk` is whether the vault directory
listing succeeds, `cloneOk` whether the `git clone` plus the file moves
out of the temp directory succeed, `branchShow` the branch reported by
`git branch --show-current` afterwards (`none` models the inner catch),
and `branches`/`branchListOk` the parsed `git branch -a` listing.  The
flag is set before the guarded `try` and reset in its `finally`, so it is
`false` on every exit path. -/
def cloneRepository (s : Settings) (flag : Bool) (url token : String)
    (fsOk readdirOk cloneOk : Bool) (branchShow : Option String)
    (branchListOk : Bool) (branches : List String) : Settings × GRes :=
  let _ := flag
  if fsOk = false then
    (s, ⟨false, ["Cannot access vault directory"], [], false⟩)
  else if readdirOk = false then
    (s, ⟨false, ["Cannot read vault directory"], [], false⟩)
  else if cloneOk = false then
    (s, ⟨false, ["Failed to clone repository"], [GitCmd.clone url], false⟩)
  else
    let cur := match branchShow with
      | some b => if b = "master" then "main" else b
      | none => "main"
    let avail := if branchListOk then
        (branches.filter (fun b => b ≠ "master")).eraseDups
      else ["main"]
    let s1 := setRepositoryToken
      { s with
        currentBranch := cur
        mainBranch := "main"
        availableBranches := avail
        repositoryUrl := url
        isRepositoryConnected := true }
      url token
    (s1, ⟨true,
      ["Repository cloned successfully! Files should now appear in your vault."],
      [GitCmd.clone url], false⟩)

/-! ### The branch-mode transition system -/

/-- A world: the persisted settings together with the branch actually
checked out in the working tree. -/
structure World where
  settings : Settings
  actual : String
deriving Repr, DecidableEq

/-- The world a transition leaves behind. -/
def worldAfter (r : TRes) : World := ⟨r.settings, r.actual⟩

/-- The central mode/branch coupling contract. -/
def ModeInv (s : Settings) : Prop :=
  s.isReadOnlyMode = true ↔ s.currentBranch = s.mainBranch

instance (s : Settings) : Decidable (ModeInv s) := by
  unfold ModeInv; infer_instance

/-- One exposed transition of the state machine, with every
git/filesystem outcome chosen freely by the environment. -/
inductive Step : World → World → Prop where
  | editMode (w : World) (b : Option String) (fsOk co vso vco : Bool) :
      Step w (worldAfter
        (enableEditMode w.settings b w.actual fsOk co vso vco))
  | readOnlyWithBranch (w : World) (fsOk : Bool) (st : Option String)
      (co vso vco : Bool) :
      Step w (worldAfter
        (enableReadOnlyModeWithBranch w.settings w.actual fsOk st co vso
          vco))
  | forceReadOnly (w : World) (fsOk co vso vco : Bool) :
      Step w (worldAfter
        (forceEnableReadOnlyMode w.settings w.actual fsOk co vso vco))
  | switchBranch (w : World) (b : String) (fsOk co vso vco : Bool) :
      Step w (worldAfter
        (switchToBranch w.settings b w.actual fsOk co vso vco))
  | validate (w : World) (fsOk vso vco : Bool) :
      Step w (worldAfter
        (validateAndEnforceBranchRules w.settings w.actual fsOk vso vco))

/-- An exposed transition in which the vault adapter is available and
every git subprocess invoked succeeds (the status query may still report
anything). -/
inductive GoodStep : World → World → Prop where
  | editMode (w : World) (b : Option String) :
      GoodStep w (worldAfter
        (enableEditMode w.settings b w.actual true true true true))
  | readOnlyWithBranch (w : World) (st : Option String) :
      GoodStep w (worldAfter
        (enableReadOnlyModeWithBranch w.settings w.actual true st true
          true true))
  | forceReadOnly (w : World) :
      GoodStep w (worldAfter
        (forceEnableReadOnlyMode w.settings w.actual true true true true))
  | switchBranch (w : World) (b : String) :
      GoodStep w (worldAfter
        (switchToBranch w.settings b w.actual true true true true))
  | validate (w : World) :
      GoodStep w (worldAfter
        (validateAndEnforceBranchRules w.settings w.actual true true
          true))

/-- Invariant carried through successful transitions: the repository
stays connected, the mode/branch contract holds, and the stored current
branch matches the actually checked-out one. -/
def WInv (w : World) : Prop :=
  w.settings.isRepositoryConnected = true ∧ ModeInv w.settings ∧
    w.actual = w.settings.currentBranch

lemma validate_good (s : Settings) (h : s.isRepositoryConnected = true) :
    WInv (worldAfter
      (validateAndEnforceBranchRules s s.currentBranch true true true)) := by
  unfold validateAndEnforceBranchRules worldAfter WInv ModeInv
  simp only [h, Bool.true_eq_false, if_false, ite_false, ite_true]
  cases hro : s.isReadOnlyMode <;> split_ifs <;> simp_all

lemma finishEditMode_good (s : Settings) (b : String)
    (hc : s.isRepositoryConnected = true) :
    WInv (worldAfter
      (finishEditMode s (some b) b [GitCmd.checkout b] true true true)) := by
  have h := validate_good
    { s with
      isReadOnlyMode := false
      currentBranch := b
      lastWorkingBranch := b } hc
  simpa [finishEditMode, worldAfter, hc] using h

lemma editMode_good (w : World) (b : Option String) (hw : WInv w) :
    WInv (worldAfter
      (enableEditMode w.settings b w.actual true true true true)) := by
  obtain ⟨hc, hi, ha⟩ := hw
  cases b with
  | none =>
    unfold enableEditMode
    dsimp only
    split_ifs <;> first | exact ⟨hc, hi, ha⟩ | simp_all
  | some bb =>
    unfold enableEditMode
    dsimp only
    have h := finishEditMode_good w.settings bb hc
    split_ifs <;> first | exact h | exact ⟨hc, hi, ha⟩ | simp_all

lemma forceReadOnly_good (w : World) (hw : WInv w) :
    WInv (worldAfter
      (forceEnableReadOnlyMode w.settings w.actual true true true true)) := by
  obtain ⟨hc, hi, ha⟩ := hw
  unfold forceEnableReadOnlyMode
  dsimp only
  have h := validate_good
    { w.settings with
      isReadOnlyMode := true
      currentBranch := w.settings.mainBranch } hc
  split_ifs <;> first | exact h | exact ⟨hc, hi, ha⟩ | simp_all

lemma switchBranch_good (w : World) (b : String) (hw : WInv w) :
    WInv (worldAfter
      (switchToBranch w.settings b w.actual true true true true)) := by
  obtain ⟨hc, hi, ha⟩ := hw
  unfold switchToBranch
  dsimp only
  have h := validate_good { w.settings with currentBranch := b } hc
  split_ifs <;> first | exact h | exact ⟨hc, hi, ha⟩ | simp_all

lemma readOnlyWB_good (w : World) (st : Option String) (hw : WInv w) :
    WInv (worldAfter
      (enableReadOnlyModeWithBranch w.settings w.actual true st true true
        true)) := by
  have hf := forceReadOnly_good w hw
  obtain ⟨hc, hi, ha⟩ := hw
  unfold enableReadOnlyModeWithBranch
  dsimp only
  split_ifs <;> first | exact hf | exact ⟨hc, hi, ha⟩ | simp_all

lemma validateStep_good (w : World) (hw : WInv w) :
    WInv (worldAfter
      (validateAndEnforceBranchRules w.settings w.actual true true true)) := by
  obtain ⟨hc, hi, ha⟩ := hw
  rw [ha]
  exact validate_good w.settings hc

lemma goodStep_inv {w w' : World} (hst : GoodStep w w') (hw : WInv w) :
    WInv w' := by
  cases hst with
  | editMode b => exact editMode_good w b hw
  | readOnlyWithBranch st => exact readOnlyWB_good w st hw
  | forceReadOnly => exact forceReadOnly_good w hw
  | switchBranch b => exact switchBranch_good w b hw
  | validate => exact validateStep_good w hw

/-- A connected state editing the branch `feature`. -/
def editingFeature : Settings :=
  { connectedMain with
    isReadOnlyMode := false
    currentBranch := "feature"
    lastWorkingBranch := "feature"
    availableBranches := ["main", "feature"] }

/-! ### Claims -/

/-- C1 (amended): from any connected world that satisfies the mode/branch
contract and whose stored current branch matches the checked-out one,
every state reachable by the exposed transitions in which the vault
adapter is available and every git subprocess succeeds again satisfies
`isReadOnlyMode = true ↔ currentBranch = mainBranch`. -/
theorem c1_mode_branch_invariant (w0 w : World)
    (hconn : w0.settings.isRepositoryConnected = true)
    (hinv : ModeInv w0.settings)
    (hact : w0.actual = w0.settings.currentBranch)
    (hreach : Relation.ReflTransGen GoodStep w0 w) :
    w.settings.isReadOnlyMode = true ↔
      w.settings.currentBranch = w.settings.mainBranch := by
  have h : WInv w := by
    induction hreach with
    | refl => exact ⟨hconn, hinv, hact⟩
    | tail hs ht ih => exact goodStep_inv ht ih
  exact h.2.1

/-- Witness for C1: the invariant after entering edit mode on `feature`
from the post-clone world. -/
theorem c1_mode_branch_invariant_witness :
    (worldAfter (enableEditMode connectedMain (some "feature") "main"
      true true true true)).settings.isReadOnlyMode = true ↔
      (worldAfter (enableEditMode connectedMain (some "feature") "main"
        true true true true)).settings.currentBranch =
        (worldAfter (enableEditMode connectedMain (some "feature") "main"
          true true true true)).settings.mainBranch :=
  c1_mode_branch_invariant ⟨connectedMain, "main"⟩
    (worldAfter (enableEditMode connectedMain (some "feature") "main"
      true true true true))
    (by decide) (by decide) (by decide)
    (Relation.ReflTransGen.single
      (GoodStep.editMode ⟨connectedMain, "main"⟩ (some "feature")))

/-- Counterexample for C1 as stated: from the legitimate post-clone world
(read-only on main, invariant holds), one exposed transition —
`forceEnableReadOnlyMode` whose `git checkout main` fails — reaches a
settings state with `isReadOnlyMode = false` and
`currentBranch = mainBranch`, violating the claimed invariant. -/
theorem c1_counterexample :
    ((⟨connectedMain, "main"⟩ : World).settings.isRepositoryConnected
        = true ∧
      ModeInv (⟨connectedMain, "main"⟩ : World).settings ∧
      (⟨connectedMain, "main"⟩ : World).actual =
        (⟨connectedMain, "main"⟩ : World).settings.currentBranch) ∧
    Relation.ReflTransGen Step (⟨connectedMain, "main"⟩ : World)
      (worldAfter
        (forceEnableReadOnlyMode connectedMain "main" true false true
          true)) ∧
    ¬ ModeInv (worldAfter
        (forceEnableReadOnlyMode connectedMain "main" true false true
          true)).settings := by
  refine ⟨by decide, Relation.ReflTransGen.single ?_, by decide⟩
  exact Step.forceReadOnly ⟨connectedMain, "main"⟩ true false true true

/-- C2 (amended with the connectivity precondition): when a repository is
connected, `enableEditMode` on a target branch equal to `mainBranch` is
rejected with the policy notice, issues no git command, opens no modal,
saves nothing and leaves the settings unchanged. -/
theorem c2_main_edit_rejected (s : Settings) (t actual : String)
    (fsOk co vso vco : Bool)
    (hconn : s.isRepositoryConnected = true)
    (ht : t = s.mainBranch) :
    (enableEditMode s (some t) actual fsOk co vso vco).settings = s ∧
    (enableEditMode s (some t) actual fsOk co vso vco).calls = [] ∧
    (enableEditMode s (some t) actual fsOk co vso vco).saved = false ∧
    (enableEditMode s (some t) actual fsOk co vso vco).modal = none ∧
    (enableEditMode s (some t) actual fsOk co vso vco).ok = false ∧
    (enableEditMode s (some t) actual fsOk co vso vco).notices =
      ["🚫 Cannot enable edit mode on " ++ s.mainBranch ++
        " branch. Please select a different branch."] := by
  subst ht
  unfold enableEditMode
  simp [hconn]

/-- Witness for C2 at the post-clone state. -/
theorem c2_main_edit_rejected_witness :
    (enableEditMode connectedMain (some "main") "main" true true true
        true).settings = connectedMain ∧
    (enableEditMode connectedMain (some "main") "main" true true true
        true).calls = [] ∧
    (enableEditMode connectedMain (some "main") "main" true true true
        true).saved = false ∧
    (enableEditMode connectedMain (some "main") "main" true true true
        true).modal = none ∧
    (enableEditMode connectedMain (some "main") "main" true true true
        true).ok = false ∧
    (enableEditMode connectedMain (some "main") "main" true true true
        true).notices =
      ["🚫 Cannot enable edit mode on " ++ connectedMain.mainBranch ++
        " branch. Please select a different branch."] :=
  c2_main_edit_rejected connectedMain "main" "main" true true true true
    rfl rfl

/-- Counterexample for C2 as stated: in a state with
`mainBranch = "main"` but no repository connected (the default settings),
`enableEditMode "main"` does not fail — it enables edit mode and mutates
`isReadOnlyMode`. -/
theorem c2_counterexample :
    DEFAULT_SETTINGS.mainBranch = "main" ∧
    DEFAULT_SETTINGS.isReadOnlyMode = true ∧
    (enableEditMode DEFAULT_SETTINGS (some "main") "main" true true true
      true).settings.isReadOnlyMode = false ∧
    (enableEditMode DEFAULT_SETTINGS (some "main") "main" true true true
      true).ok = true := by decide

/-- C3 (amended): when the `git checkout mainBranch` performed by
`forceEnableReadOnlyMode` fails, the transition is aborted — nothing is
persisted, the current branch is untouched and the failure notice is
shown — and `isReadOnlyMode` is set to `false` (equal to its value before
the call whenever the call was made from edit mode), so the system never
reports read-only mode while the working tree sits on a non-main
branch. -/
theorem c3_checkout_fail_reverts (s : Settings) (actual : String)
    (vso vco : Bool)
    (hconn : s.isRepositoryConnected = true) :
    (forceEnableReadOnlyMode s actual true false vso vco).settings =
      { s with isReadOnlyMode := false } ∧
    (forceEnableReadOnlyMode s actual true false vso vco).ok = false ∧
    (forceEnableReadOnlyMode s actual true false vso vco).saved = false ∧
    (forceEnableReadOnlyMode s actual true false vso vco).actual =
      actual ∧
    (forceEnableReadOnlyMode s actual true false vso vco).notices =
      ["❌ Cannot enable read-only mode: Failed to switch to " ++
        s.mainBranch ++ " branch"] ∧
    (s.isReadOnlyMode = false →
      (forceEnableReadOnlyMode s actual true false vso
        vco).settings.isReadOnlyMode = s.isReadOnlyMode) := by
  unfold forceEnableReadOnlyMode
  simp [hconn]

/-- Witness for C3 from the edit-mode state on `feature`. -/
theorem c3_checkout_fail_reverts_witness :
    (forceEnableReadOnlyMode editingFeature "feature" true false true
        true).settings = { editingFeature with isReadOnlyMode := false } ∧
    (forceEnableReadOnlyMode editingFeature "feature" true false true
        true).ok = false ∧
    (forceEnableReadOnlyMode editingFeature "feature" true false true
        true).saved = false ∧
    (forceEnableReadOnlyMode editingFeature "feature" true false true
        true).actual = "feature" ∧
    (forceEnableReadOnlyMode editingFeature "feature" true false true
        true).notices =
      ["❌ Cannot enable read-only mode: Failed to switch to " ++
        editingFeature.mainBranch ++ " branch"] ∧
    (editingFeature.isReadOnlyMode = false →
      (forceEnableReadOnlyMode editingFeature "feature" true false true
        true).settings.isReadOnlyMode = editingFeature.isReadOnlyMode) :=
  c3_checkout_fail_reverts editingFeature "feature" true true rfl

/-- Counterexample for C3 as stated: called while `isReadOnlyMode` is
already `true`, a failing checkout leaves `isReadOnlyMode = false`, not
the value it had before the call. -/
theorem c3_counterexample :
    connectedMain.isReadOnlyMode = true ∧
    (forceEnableReadOnlyMode connectedMain "main" true false true
      true).settings.isReadOnlyMode = false := by decide

/-- C4: in `pushChanges`, whenever the behind-count query reports a
positive count, the pull of the current branch precedes the push; and
whenever that pull fails, the push is never attempted, the call returns
`false`, and the only notice shown is the explicit
resolve-conflicts-manually message. -/
theorem c4_push_safety (s : Settings) (flag fetchOk pushOk : Bool)
    (n : Nat)
    (hconn : s.isRepositoryConnected = true) (hn : 0 < n) :
    (pushChanges s flag true fetchOk (some n) true pushOk).calls =
      [GitCmd.fetch, GitCmd.revListCount s.currentBranch,
        GitCmd.pull s.currentBranch, GitCmd.push s.currentBranch] ∧
    (pushChanges s flag true fetchOk (some n) false pushOk).ok = false ∧
    (pushChanges s flag true fetchOk (some n) false pushOk).calls =
      [GitCmd.fetch, GitCmd.revListCount s.currentBranch,
        GitCmd.pull s.currentBranch] ∧
    GitCmd.push s.currentBranch ∉
      (pushChanges s flag true fetchOk (some n) false pushOk).calls ∧
    (pushChanges s flag true fetchOk (some n) false pushOk).notices =
      ["❌ Cannot push: Local branch is behind remote and pull failed. Please resolve conflicts manually."] := by
  unfold pushChanges
  simp [hconn, hn]

/-- Witness for C4 on the `feature` edit-mode state, two commits
behind. -/
theorem c4_push_safety_witness :
    (pushChanges editingFeature false true true (some 2) true
        true).calls =
      [GitCmd.fetch, GitCmd.revListCount editingFeature.currentBranch,
        GitCmd.pull editingFeature.currentBranch,
        GitCmd.push editingFeature.currentBranch] ∧
    (pushChanges editingFeature false true true (some 2) false true).ok
        = false ∧
    (pushChanges editingFeature false true true (some 2) false
        true).calls =
      [GitCmd.fetch, GitCmd.revListCount editingFeature.currentBranch,
        GitCmd.pull editingFeature.currentBranch] ∧
    GitCmd.push editingFeature.currentBranch ∉
      (pushChanges editingFeature false true true (some 2) false
        true).calls ∧
    (pushChanges editingFeature false true true (some 2) false
        true).notices =
      ["❌ Cannot push: Local branch is behind remote and pull failed. Please resolve conflicts manually."] :=
  c4_push_safety editingFeature false true true 2 rfl (by decide)

/-- Keys normalizing alike share one entry in the credential store. -/
lemma getToken_setToken (s : Settings) (u1 u2 t : String)
    (h : normalizeRepositoryUrl u1 = normalizeRepositoryUrl u2) :
    getRepositoryToken (setRepositoryToken s u1 t) u2 = some t := by
  unfold getRepositoryToken setRepositoryToken upsertToken
  rw [← h]
  simp [List.lookup]

/-- C5: storing a token under `https://github.com/owner/repo.git` and
retrieving it via `github.com/owner/repo` yields that token; in general,
storing and looking up under any two spellings with the same normal form
hits the same entry. -/
theorem c5_token_roundtrip (s : Settings) (t u1 u2 : String)
    (h : normalizeRepositoryUrl u1 = normalizeRepositoryUrl u2) :
    getRepositoryToken
      (setRepositoryToken s "https://github.com/owner/repo.git" t)
      "github.com/owner/repo" = some t ∧
    getRepositoryToken (setRepositoryToken s u1 t) u2 = some t :=
  ⟨getToken_setToken s "https://github.com/owner/repo.git"
      "github.com/owner/repo" t (by decide),
    getToken_setToken s u1 u2 t h⟩

/-- Witness for C5 with the two spellings of the claim. -/
theorem c5_token_roundtrip_witness :
    getRepositoryToken
      (setRepositoryToken DEFAULT_SETTINGS
        "https://github.com/owner/repo.git" "tok")
      "github.com/owner/repo" = some "tok" ∧
    getRepositoryToken
      (setRepositoryToken DEFAULT_SETTINGS
        "http://github.com/owner/repo" "tok")
      "github.com/owner/repo.git" = some "tok" :=
  c5_token_roundtrip DEFAULT_SETTINGS "tok"
    "http://github.com/owner/repo" "github.com/owner/repo.git"
    (by decide)

/-- C6 (amended with the connectivity and vault-access preconditions):
when a repository is connected and the vault path is accessible,
`switchToBranch` is rejected without issuing any git command exactly in
the two disallowed cases, and in those cases it returns `false` with a
notice and mutates nothing. -/
theorem c6_switch_guards (s : Settings) (b actual : String)
    (co vso vco : Bool)
    (hconn : s.isRepositoryConnected = true) :
    (((switchToBranch s b actual true co vso vco).ok = false ∧
        (switchToBranch s b actual true co vso vco).calls = []) ↔
      ((s.isReadOnlyMode = true ∧ b ≠ s.mainBranch) ∨
        (s.isReadOnlyMode = false ∧ b = s.mainBranch))) ∧
    (((s.isReadOnlyMode = true ∧ b ≠ s.mainBranch) ∨
        (s.isReadOnlyMode = false ∧ b = s.mainBranch)) →
      (switchToBranch s b actual true co vso vco).settings = s ∧
      (switchToBranch s b actual true co vso vco).saved = false ∧
      (switchToBranch s b actual true co vso vco).notices ≠ []) := by
  unfold switchToBranch
  by_cases g1 : s.isReadOnlyMode = true ∧ b ≠ s.mainBranch
  · simp [hconn, g1]
  · by_cases g2 : s.isReadOnlyMode = false ∧ b = s.mainBranch
    · simp [hconn, g1, g2]
    · cases co with
      | false => simp [hconn, g1, g2]
      | true => simp [hconn, g1, g2]

/-- Witness for C6 on the read-only post-clone state. -/
theorem c6_switch_guards_witness :
    (((switchToBranch connectedMain "feature" "main" true true true
          true).ok = false ∧
        (switchToBranch connectedMain "feature" "main" true true true
          true).calls = []) ↔
      ((connectedMain.isReadOnlyMode = true ∧
          "feature" ≠ connectedMain.mainBranch) ∨
        (connectedMain.isReadOnlyMode = false ∧
          "feature" = connectedMain.mainBranch))) ∧
    (((connectedMain.isReadOnlyMode = true ∧
          "feature" ≠ connectedMain.mainBranch) ∨
        (connectedMain.isReadOnlyMode = false ∧
          "feature" = connectedMain.mainBranch)) →
      (switchToBranch connectedMain "feature" "main" true true true
          true).settings = connectedMain ∧
      (switchToBranch connectedMain "feature" "main" true true true
          true).saved = false ∧
      (switchToBranch connectedMain "feature" "main" true true true
          true).notices ≠ []) :=
  c6_switch_guards connectedMain "feature" "main" true true true rfl

/-- Counterexample for C6 as stated: with no repository connected,
`switchToBranch "main"` is also rejected without any checkout, although
neither disallowed case holds — the rejection cases are not exactly the
two stated ones. -/
theorem c6_counterexample :
    ((switchToBranch DEFAULT_SETTINGS "main" "main" true true true
        true).ok = false ∧
      (switchToBranch DEFAULT_SETTINGS "main" "main" true true true
        true).calls = []) ∧
    ¬((DEFAULT_SETTINGS.isReadOnlyMode = true ∧
        "main" ≠ DEFAULT_SETTINGS.mainBranch) ∨
      (DEFAULT_SETTINGS.isReadOnlyMode = false ∧
        "main" = DEFAULT_SETTINGS.mainBranch)) := by decide

/-- C7: with a repository connected, an accessible vault and a working
branch query, if the actually checked-out branch equals `mainBranch`
while `isReadOnlyMode` is `false`, one run of the validator flips
`isReadOnlyMode` to `true`, changes nothing else, and shows the
informational notice; being a total function of the model it cannot
throw. -/
theorem c7_validator_heals (s : Settings) (co : Bool)
    (hconn : s.isRepositoryConnected = true)
    (hro : s.isReadOnlyMode = false) :
    (validateAndEnforceBranchRules s s.mainBranch true true co).settings =
      { s with isReadOnlyMode := true } ∧
    (validateAndEnforceBranchRules s s.mainBranch true true co).notices =
      ["🚫 Cannot edit on " ++ s.mainBranch ++
        " branch. Switched to read-only mode."] ∧
    (validateAndEnforceBranchRules s s.mainBranch true true
      co).settings.currentBranch = s.currentBranch := by
  unfold validateAndEnforceBranchRules
  by_cases hm : s.mainBranch = "main" <;> simp [hconn, hro, hm]

/-- Witness for C7: edit mode recorded while `main` is checked out. -/
theorem c7_validator_heals_witness :
    (validateAndEnforceBranchRules
        { connectedMain with isReadOnlyMode := false }
        { connectedMain with isReadOnlyMode := false }.mainBranch
        true true true).settings =
      { { connectedMain with isReadOnlyMode := false } with
        isReadOnlyMode := true } ∧
    (validateAndEnforceBranchRules
        { connectedMain with isReadOnlyMode := false }
        { connectedMain with isReadOnlyMode := false }.mainBranch
        true true true).notices =
      ["🚫 Cannot edit on " ++
        { connectedMain with isReadOnlyMode := false }.mainBranch ++
        " branch. Switched to read-only mode."] ∧
    (validateAndEnforceBranchRules
        { connectedMain with isReadOnlyMode := false }
        { connectedMain with isReadOnlyMode := false }.mainBranch
        true true true).settings.currentBranch =
      { connectedMain with isReadOnlyMode := false }.currentBranch :=
  c7_validator_heals { connectedMain with isReadOnlyMode := false } true
    rfl rfl

/-- C8: with the operation flag clear at entry (its resting value),
`pushChanges`, `pullLatestChanges` and `cloneRepository` leave
`isGitOperationInProgress = false` on every exit path — success, failure
and every modelled thrown step. -/
theorem c8_flag_released (s : Settings)
    (flag fsOk fetchOk pullOk pushOk checkoutOk readdirOk cloneOk
      branchListOk : Bool)
    (revList : Option Nat) (branchShow : Option String)
    (url token : String) (branches : List String)
    (hflag : flag = false) :
    (pushChanges s flag fsOk fetchOk revList pullOk pushOk).flag
        = false ∧
    (pullLatestChanges s flag fsOk checkoutOk pullOk).flag = false ∧
    (cloneRepository s flag url token fsOk readdirOk cloneOk branchShow
      branchListOk branches).2.flag = false := by
  subst hflag
  refine ⟨?_, ?_, ?_⟩
  · unfold pushChanges
    cases revList <;> dsimp only <;> split_ifs <;> rfl
  · unfold pullLatestChanges
    split_ifs <;> rfl
  · unfold cloneRepository
    split_ifs <;> rfl

/-- Witness for C8 over a failing pull, a failing checkout and a failing
clone. -/
theorem c8_flag_released_witness :
    (pushChanges editingFeature false true true (some 1) false
        true).flag = false ∧
    (pullLatestChanges editingFeature false true false true).flag
        = false ∧
    (cloneRepository DEFAULT_SETTINGS false
      "https://github.com/owner/repo.git" "tok" true true false none
      false []).2.flag = false :=
  c8_flag_released editingFeature false true true false true false true
    false false (some 1) none "https://github.com/owner/repo.git" "tok"
    [] rfl

lemma validate_modal_none (s : Settings) (actual : String)
    (fsOk so co : Bool) :
    (validateAndEnforceBranchRules s actual fsOk so co).modal = none := by
  unfold validateAndEnforceBranchRules
  dsimp only
  split_ifs <;> rfl

lemma force_modal_none (s : Settings) (actual : String)
    (fsOk co vso vco : Bool) :
    (forceEnableReadOnlyMode s actual fsOk co vso vco).modal = none := by
  unfold forceEnableReadOnlyMode
  split_ifs <;> first | rfl | exact validate_modal_none ..

/-- C9: `checkForUncommittedChanges` returns `false` both when no
repository is connected and when the status query throws, so a failed
status query is indistinguishable from a clean tree and
`enableReadOnlyModeWithBranch` then proceeds straight to
`forceEnableReadOnlyMode` without opening the save modal. -/
theorem c9_status_failure_reads_clean (s : Settings) (actual : String)
    (fsOk co vso vco : Bool)
    (hconn : s.isRepositoryConnected = true)
    (hro : s.isReadOnlyMode = false) :
    (∀ s2 : Settings, ∀ f : Bool, ∀ st : Option String,
      s2.isRepositoryConnected = false →
        (checkForUncommittedChanges s2 f st).1 = false) ∧
    (∀ s2 : Settings, ∀ f : Bool,
      (checkForUncommittedChanges s2 f none).1 = false) ∧
    ((enableReadOnlyModeWithBranch s actual fsOk none co vso vco).modal
        = none ∧
      (enableReadOnlyModeWithBranch s actual fsOk none co vso
          vco).settings =
        (forceEnableReadOnlyMode s actual fsOk co vso vco).settings ∧
      (enableReadOnlyModeWithBranch s actual fsOk none co vso
          vco).actual =
        (forceEnableReadOnlyMode s actual fsOk co vso vco).actual ∧
      (enableReadOnlyModeWithBranch s actual fsOk none co vso vco).ok =
        (forceEnableReadOnlyMode s actual fsOk co vso vco).ok) := by
  refine ⟨?_, ?_, ?_⟩
  · intro s2 f st h2
    unfold checkForUncommittedChanges
    simp [h2]
  · intro s2 f
    unfold checkForUncommittedChanges
    split_ifs <;> rfl
  · have hchk : (checkForUncommittedChanges s fsOk none).1 = false := by
      unfold checkForUncommittedChanges
      split_ifs <;> rfl
    unfold enableReadOnlyModeWithBranch
    simp [hconn, hro, hchk, force_modal_none]

/-- Witness for C9 on the `feature` edit-mode state with a throwing
status query. -/
theorem c9_status_failure_reads_clean_witness :
    (checkForUncommittedChanges DEFAULT_SETTINGS true
        (some " M a.md")).1 = false ∧
    (checkForUncommittedChanges editingFeature true none).1 = false ∧
    (enableReadOnlyModeWithBranch editingFeature "feature" true none
        true true true).modal = none ∧
    (enableReadOnlyModeWithBranch editingFeature "feature" true none
        true true true).settings =
      (forceEnableReadOnlyMode editingFeature "feature" true true true
        true).settings := by
  have h := c9_status_failure_reads_clean editingFeature "feature" true
    true true true rfl rfl
  exact ⟨h.1 DEFAULT_SETTINGS true (some " M a.md") rfl,
    h.2.1 editingFeature true, h.2.2.1, h.2.2.2.1⟩

/-- C10: with no repository connected, `enableEditMode` — with or
without a branch name — only clears `isReadOnlyMode` and persists: no
git command is issued, no modal opens, no main-branch check happens
(the branch argument is arbitrary, including `mainBranch` itself), and
the branch fields stay untouched. -/
theorem c10_disconnected_edit (s : Settings) (b : Option String)
    (actual : String) (fsOk co vso vco : Bool)
    (hconn : s.isRepositoryConnected = false) :
    (enableEditMode s b actual fsOk co vso vco).settings =
      { s with isReadOnlyMode := false } ∧
    (enableEditMode s b actual fsOk co vso vco).calls = [] ∧
    (enableEditMode s b actual fsOk co vso vco).saved = true ∧
    (enableEditMode s b actual fsOk co vso vco).modal = none ∧
    (enableEditMode s b actual fsOk co vso vco).ok = true := by
  cases b <;>
    · unfold enableEditMode finishEditMode validateAndEnforceBranchRules
      simp [hconn]

/-- Witness for C10: the default (disconnected) settings, asking to edit
`main` itself. -/
theorem c10_disconnected_edit_witness :
    (enableEditMode DEFAULT_SETTINGS (some "main") "main" true true true
        true).settings =
      { DEFAULT_SETTINGS with isReadOnlyMode := false } ∧
    (enableEditMode DEFAULT_SETTINGS (some "main") "main" true true true
        true).calls = [] ∧
    (enableEditMode DEFAULT_SETTINGS (some "main") "main" true true true
        true).saved = true ∧
    (enableEditMode DEFAULT_SETTINGS (some "main") "main" true true true
        true).modal = none ∧
    (enableEditMode DEFAULT_SETTINGS (some "main") "main" true true true
        true).ok = true :=
  c10_disconnected_edit DEFAULT_SETTINGS (some "main") "main" true true
    true true rfl

end GitCollab
